import Mathlib

/-!
Shallow embedding of the Agbero performance-bond escrow program
(src/programs/agbero/src/lib.rs) and verification of its specification.

Modelling conventions:
- `Pubkey` identities are modelled as `Nat`.
- `u64` amounts are modelled as `Nat` (no arithmetic in the program can
  overflow at the modelled scales), `i64` timestamps as `Int`.
- Each instruction handler is a pure function from the pre-state to
  `Except AgberoError` of the post-state.  The Solana runtime discards all
  account writes of an instruction that returns an error, so the
  `Except`-monadic embedding (an error yields no post-state at all) is the
  faithful model of the observable transaction semantics: on error the bond
  record and all balances are unchanged.
- `Clock::get()?.unix_timestamp` is the same value throughout one
  instruction; it is the `now` field of `Env`.
- The ledger collaborator `system_program::transfer` is modelled by
  `transfer`: it fails when the source balance is below the amount, or when
  the external collaborator rejects the call (bad authorization witness,
  rent constraints, ...), which is modelled by the `transferFails` flag of
  `Env`.
- `require!(cond, err)` translates to `if cond then ... else .error err`
  (checks in source order).
-/

deriving instance DecidableEq for Except

namespace Agbero

/-- Bond lifecycle states, from `BondStatus` in lib.rs. -/
inductive BondStatus where
  | pending
  | active
  | pendingVerification
  | completed
  | slashed
deriving DecidableEq, Repr

/-- A verification vote, from `VerificationVote` in lib.rs. -/
structure VerificationVote where
  verifier : Nat
  approve : Bool
  timestamp : Int
deriving DecidableEq, Repr

/-- A slash vote, from `SlashVote` in lib.rs (never appended by any handler). -/
structure SlashVote where
  voter : Nat
  reason : String
  timestamp : Int
deriving DecidableEq, Repr

/-- The persisted bond record, from `Bond` in lib.rs.  The `bump` PDA seed
byte is derivation-witness material, not business state, and is omitted. -/
structure Bond where
  bond_id : String
  principal : Nat
  agent : Nat
  task_description : String
  collateral_amount : Nat
  deadline : Int
  status : BondStatus
  created_at : Int
  completed_at : Int
  verification_votes : List VerificationVote
  slash_votes : List SlashVote
  proof_uri : String
deriving DecidableEq, Repr

/-- The error kinds of `AgberoError` in lib.rs, plus `transferError`
standing for an error propagated from the ledger collaborator by the `?`
operator on `system_program::transfer`. -/
inductive AgberoError where
  | descriptionTooLong
  | collateralTooLow
  | invalidDeadline
  | invalidBondStatus
  | unauthorizedAgent
  | unauthorizedPrincipal
  | agentCannotVerify
  | deadlineExceeded
  | proofUriTooLong
  | quorumNotReached
  | transferError
deriving DecidableEq, Repr

/-- The state an instruction can touch: the bond record plus the lamport
balances of the agent, the principal and the bond vault. -/
structure State where
  bond : Bond
  agentBal : Nat
  principalBal : Nat
  vaultBal : Nat
deriving DecidableEq, Repr

/-- Per-instruction environment: the clock value and the verdict of the
external ledger collaborator for the (at most one) transfer the
instruction issues. -/
structure Env where
  now : Int
  transferFails : Bool
deriving DecidableEq, Repr

/-- The ledger collaborator's atomic transfer (spec section 6): moves
`amount` from the first balance to the second, failing on insufficient
source balance or when the collaborator rejects the call. -/
def transfer (e : Env) (fromBal toBal amount : Nat) :
    Except AgberoError (Nat × Nat) :=
  if e.transferFails ∨ fromBal < amount then .error .transferError
  else .ok (fromBal - amount, toBal + amount)

/-- `create_bond` handler (lib.rs lines 16-55): validates description
length, collateral minimum and deadline, then initialises the record. -/
def create_bond (principal agent : Nat) (bond_id task_description : String)
    (collateral_amount : Nat) (deadline : Int) (e : Env) :
    Except AgberoError Bond :=
  if task_description.length > 500 then .error .descriptionTooLong
  else if collateral_amount < 1000000 then .error .collateralTooLow
  else if deadline ≤ e.now then .error .invalidDeadline
  else .ok {
    bond_id := bond_id
    principal := principal
    agent := agent
    task_description := task_description
    collateral_amount := collateral_amount
    deadline := deadline
    status := .pending
    created_at := e.now
    completed_at := 0
    verification_votes := []
    slash_votes := []
    proof_uri := "" }

/-- `stake_collateral` handler (lib.rs lines 58-90): status must be
Pending, caller must be the agent; transfers `collateral_amount` from the
agent to the vault and sets status Active. -/
def stake_collateral (s : State) (caller : Nat) (e : Env) :
    Except AgberoError State :=
  if s.bond.status ≠ .pending then .error .invalidBondStatus
  else if caller ≠ s.bond.agent then .error .unauthorizedAgent
  else match transfer e s.agentBal s.vaultBal s.bond.collateral_amount with
    | .error err => .error err
    | .ok (a, v) =>
      .ok { s with
        bond := { s.bond with status := .active }
        agentBal := a
        vaultBal := v }

/-- `submit_proof` handler (lib.rs lines 93-121): status must be Active,
caller must be the agent, clock must not exceed the deadline, proof URI at
most 200 bytes; stores the URI and sets status PendingVerification. -/
def submit_proof (s : State) (caller : Nat) (proof_uri : String) (e : Env) :
    Except AgberoError State :=
  if s.bond.status ≠ .active then .error .invalidBondStatus
  else if caller ≠ s.bond.agent then .error .unauthorizedAgent
  else if e.now > s.bond.deadline then .error .deadlineExceeded
  else if proof_uri.length > 200 then .error .proofUriTooLong
  else .ok { s with
    bond := { s.bond with
      proof_uri := proof_uri
      status := .pendingVerification } }

/-- `verify_work` handler (lib.rs lines 125-153): status must be
PendingVerification, verifier must not be the agent; pushes a vote onto
`verification_votes` (the source has no capacity check). -/
def verify_work (s : State) (verifier : Nat) (approve : Bool) (e : Env) :
    Except AgberoError State :=
  if s.bond.status ≠ .pendingVerification then .error .invalidBondStatus
  else if verifier = s.bond.agent then .error .agentCannotVerify
  else .ok { s with
    bond := { s.bond with
      verification_votes :=
        s.bond.verification_votes ++
          [{ verifier := verifier, approve := approve, timestamp := e.now }] } }

/-- `total_votes` of the tally in `finalize_bond` (lib.rs line 167). -/
def total_votes (votes : List VerificationVote) : Nat := votes.length

/-- `approve_votes` of the tally in `finalize_bond` (lib.rs lines 168-171). -/
def approve_votes (votes : List VerificationVote) : Nat :=
  (votes.filter (fun v => v.approve)).length

/-- `slash_votes` of the tally in `finalize_bond` (lib.rs line 172);
`u64` subtraction never underflows here since the filter count is at most
the length. -/
def slash_votes (votes : List VerificationVote) : Nat :=
  total_votes votes - approve_votes votes

/-- `quorum_reached` (lib.rs line 175): at least 3 votes. -/
def quorum_reached (votes : List VerificationVote) : Bool :=
  total_votes votes ≥ 3

/-- `majority_approve` (lib.rs line 176): at least 2/3 of votes approve,
in exact integer arithmetic. -/
def majority_approve (votes : List VerificationVote) : Bool :=
  approve_votes votes * 3 ≥ total_votes votes * 2

/-- `majority_slash` (lib.rs line 177): at least 2/3 of votes reject,
in exact integer arithmetic. -/
def majority_slash (votes : List VerificationVote) : Bool :=
  slash_votes votes * 3 ≥ total_votes votes * 2

/-- `finalize_bond` handler (lib.rs lines 157-279): eligible when status
is PendingVerification, or Active with the clock past the deadline
(`||` binds looser than `&&` in the source guard).  First matching branch
wins: approve majority pays the whole vault balance to the agent and sets
Completed; reject majority pays it to the principal and sets Slashed;
past the 24-hour grace period it is paid to the principal and set Slashed
regardless of votes; otherwise the call fails with QuorumNotReached. -/
def finalize_bond (s : State) (e : Env) : Except AgberoError State :=
  let vault_balance := s.vaultBal
  if ¬ (s.bond.status = .pendingVerification ∨
      (s.bond.status = .active ∧ e.now > s.bond.deadline)) then
    .error .invalidBondStatus
  else
    let votes := s.bond.verification_votes
    if quorum_reached votes && majority_approve votes then
      match transfer e s.vaultBal s.agentBal vault_balance with
      | .error err => .error err
      | .ok (v, a) =>
        .ok { s with
          bond := { s.bond with status := .completed, completed_at := e.now }
          vaultBal := v
          agentBal := a }
    else if quorum_reached votes && majority_slash votes then
      match transfer e s.vaultBal s.principalBal vault_balance with
      | .error err => .error err
      | .ok (v, p) =>
        .ok { s with
          bond := { s.bond with status := .slashed, completed_at := e.now }
          vaultBal := v
          principalBal := p }
    else if e.now > s.bond.deadline + 86400 then
      match transfer e s.vaultBal s.principalBal vault_balance with
      | .error err => .error err
      | .ok (v, p) =>
        .ok { s with
          bond := { s.bond with status := .slashed, completed_at := e.now }
          vaultBal := v
          principalBal := p }
    else .error .quorumNotReached

/-- `emergency_slash` handler (lib.rs lines 283-329): status must be
Active or PendingVerification, caller must be the principal; drains the
whole vault balance to the principal and sets Slashed. -/
def emergency_slash (s : State) (caller : Nat) (e : Env) :
    Except AgberoError State :=
  if ¬ (s.bond.status = .active ∨ s.bond.status = .pendingVerification) then
    .error .invalidBondStatus
  else if caller ≠ s.bond.principal then .error .unauthorizedPrincipal
  else match transfer e s.vaultBal s.principalBal s.vaultBal with
    | .error err => .error err
    | .ok (v, p) =>
      .ok { s with
        bond := { s.bond with status := .slashed, completed_at := e.now }
        vaultBal := v
        principalBal := p }

/-- One successful mutating instruction on an existing bond state. -/
inductive Step : State → State → Prop where
  | stake (s s' : State) (caller : Nat) (e : Env) :
      stake_collateral s caller e = .ok s' → Step s s'
  | submit (s s' : State) (caller : Nat) (uri : String) (e : Env) :
      submit_proof s caller uri e = .ok s' → Step s s'
  | verify (s s' : State) (verifier : Nat) (approve : Bool) (e : Env) :
      verify_work s verifier approve e = .ok s' → Step s s'
  | finalize (s s' : State) (e : Env) :
      finalize_bond s e = .ok s' → Step s s'
  | emergency (s s' : State) (caller : Nat) (e : Env) :
      emergency_slash s caller e = .ok s' → Step s s'

/-- States reachable by a successful `create_bond` (the vault account is
created empty) followed by any sequence of successful instructions.  The
agent and principal wallet balances at creation are arbitrary. -/
inductive Reachable : State → Prop where
  | init (principal agent : Nat) (bond_id task_description : String)
      (collateral_amount : Nat) (deadline : Int) (e : Env)
      (aBal pBal : Nat) (bond : Bond) :
      create_bond principal agent bond_id task_description
        collateral_amount deadline e = .ok bond →
      Reachable { bond := bond, agentBal := aBal, principalBal := pBal,
                  vaultBal := 0 }
  | step (s s' : State) : Reachable s → Step s s' → Reachable s'

/-- The runtime's commit/rollback rule for one instruction: a successful
instruction commits its post-state, a failed one leaves the pre-state in
place (all account writes of a failed Solana instruction are discarded). -/
def runInstr (s : State) (r : Except AgberoError State) : State :=
  match r with
  | .ok s' => s'
  | .error _ => s

/-! ### Concrete states used as evaluation witnesses -/

/-- A bond in PendingVerification with votes approve, approve, reject. -/
def bondA : Bond :=
  { bond_id := "b1", principal := 1, agent := 2, task_description := "t",
    collateral_amount := 1000000, deadline := 100,
    status := .pendingVerification, created_at := 0, completed_at := 0,
    verification_votes :=
      [{ verifier := 3, approve := true, timestamp := 10 },
       { verifier := 4, approve := true, timestamp := 11 },
       { verifier := 5, approve := false, timestamp := 12 }],
    slash_votes := [], proof_uri := "u" }

/-- The vault balance 1000005 deliberately differs from
`collateral_amount` to exhibit that the drain sends the whole balance. -/
def stateA : State :=
  { bond := bondA, agentBal := 7, principalBal := 8, vaultBal := 1000005 }

/-- A bond in PendingVerification with only two votes (no quorum). -/
def bondB : Bond :=
  { bondA with verification_votes :=
      [{ verifier := 3, approve := true, timestamp := 10 },
       { verifier := 4, approve := false, timestamp := 11 }] }

def stateB : State :=
  { bond := bondB, agentBal := 7, principalBal := 8, vaultBal := 1000000 }

/-- A bond in Active status with no votes, past its deadline grace window
at time 86600. -/
def bondC : Bond :=
  { bondA with status := .active, verification_votes := [], proof_uri := "" }

def stateC : State :=
  { bond := bondC, agentBal := 7, principalBal := 8, vaultBal := 1000000 }

/-- A completed (terminal) bond. -/
def bondDone : Bond :=
  { bondA with status := .completed, completed_at := 50 }

def stateDone : State :=
  { bond := bondDone, agentBal := 1000012, principalBal := 8, vaultBal := 0 }

/-- A bond in PendingVerification already holding ten votes, the capacity
the record layout is sized for. -/
def bondTen : Bond :=
  { bondA with
    verification_votes :=
      (List.range 10).map
        (fun i => { verifier := 100 + i, approve := true, timestamp := 0 }) }

def stateTen : State :=
  { bond := bondTen, agentBal := 7, principalBal := 8, vaultBal := 1000000 }

def envA : Env := { now := 50, transferFails := false }

def envG : Env := { now := 86600, transferFails := false }

def envFail : Env := { now := 50, transferFails := true }

/-- A task description one byte over the 500-byte bound. -/
def longDesc : String := String.mk (List.replicate 501 'x')

/-- A bond id one byte over the 50-byte bound of the record layout. -/
def longId : String := String.mk (List.replicate 51 'i')

/-- Three approving votes. -/
def votes3 : List VerificationVote :=
  [{ verifier := 3, approve := true, timestamp := 0 },
   { verifier := 4, approve := true, timestamp := 0 },
   { verifier := 5, approve := true, timestamp := 0 }]

/-- The bond `create_bond 1 2 "b1" "t" 1000000 100 envA` produces. -/
def bond0 : Bond :=
  { bond_id := "b1", principal := 1, agent := 2, task_description := "t",
    collateral_amount := 1000000, deadline := 100, status := .pending,
    created_at := 50, completed_at := 0, verification_votes := [],
    slash_votes := [], proof_uri := "" }

def state0 : State :=
  { bond := bond0, agentBal := 5, principalBal := 6, vaultBal := 0 }

/-! ### Helper lemmas on the tally -/

theorem quorum_reached_iff (votes : List VerificationVote) :
    quorum_reached votes = true ↔ 3 ≤ total_votes votes := by
  simp [quorum_reached]

theorem majority_approve_iff (votes : List VerificationVote) :
    majority_approve votes = true ↔
      total_votes votes * 2 ≤ approve_votes votes * 3 := by
  simp [majority_approve]

theorem majority_slash_iff (votes : List VerificationVote) :
    majority_slash votes = true ↔
      total_votes votes * 2 ≤ slash_votes votes * 3 := by
  simp [majority_slash]

theorem approve_votes_le_total (votes : List VerificationVote) :
    approve_votes votes ≤ total_votes votes :=
  List.length_filter_le _ votes

/-! ### Anatomy of each handler: what a successful call implies -/

theorem transfer_ok_effects (e : Env) (fromBal toBal amount : Nat)
    (pair : Nat × Nat) (h : transfer e fromBal toBal amount = .ok pair) :
    e.transferFails = false ∧ amount ≤ fromBal ∧
    pair = (fromBal - amount, toBal + amount) := by
  unfold transfer at h
  split at h
  · exact Except.noConfusion h
  · rename_i hc
    push_neg at hc
    injection h with h
    refine ⟨by simpa using hc.1, by omega, h.symm⟩

theorem create_bond_ok_effects (p a : Nat) (bid desc : String) (col : Nat)
    (dl : Int) (e : Env) (b : Bond)
    (h : create_bond p a bid desc col dl e = .ok b) :
    b.status = .pending ∧ b.verification_votes = [] ∧ b.completed_at = 0 ∧
    b.proof_uri = "" ∧ b.bond_id = bid ∧ desc.length ≤ 500 ∧
    1000000 ≤ col ∧ e.now < dl := by
  unfold create_bond at h
  split at h
  · exact Except.noConfusion h
  split at h
  · exact Except.noConfusion h
  split at h
  · exact Except.noConfusion h
  rename_i h1 h2 h3
  injection h with h
  subst h
  refine ⟨rfl, rfl, rfl, rfl, rfl, by omega, by omega, by omega⟩

theorem stake_collateral_ok_effects (s s' : State) (c : Nat) (e : Env)
    (h : stake_collateral s c e = .ok s') :
    s.bond.status = .pending ∧ s'.bond.status = .active ∧
    s'.bond.verification_votes = s.bond.verification_votes := by
  unfold stake_collateral at h
  split at h
  · exact Except.noConfusion h
  split at h
  · exact Except.noConfusion h
  rename_i h1 h2
  split at h
  · exact Except.noConfusion h
  · injection h with h
    subst h
    exact ⟨by simpa using h1, rfl, rfl⟩

theorem submit_proof_ok_effects (s s' : State) (c : Nat) (uri : String)
    (e : Env) (h : submit_proof s c uri e = .ok s') :
    s.bond.status = .active ∧ s'.bond.status = .pendingVerification := by
  unfold submit_proof at h
  split at h
  · exact Except.noConfusion h
  split at h
  · exact Except.noConfusion h
  split at h
  · exact Except.noConfusion h
  split at h
  · exact Except.noConfusion h
  rename_i h1 h2 h3 h4
  injection h with h
  subst h
  exact ⟨by simpa using h1, rfl⟩

theorem verify_work_ok_effects (s s' : State) (verifier : Nat)
    (approve : Bool) (e : Env) (h : verify_work s verifier approve e = .ok s') :
    s.bond.status = .pendingVerification ∧
    s'.bond.status = .pendingVerification ∧
    s'.bond.verification_votes = s.bond.verification_votes ++
      [{ verifier := verifier, approve := approve, timestamp := e.now }] := by
  unfold verify_work at h
  split at h
  · exact Except.noConfusion h
  split at h
  · exact Except.noConfusion h
  rename_i h1 h2
  injection h with h
  subst h
  exact ⟨by simpa using h1, by simpa using h1, rfl⟩

theorem finalize_bond_ok_effects (s s' : State) (e : Env)
    (h : finalize_bond s e = .ok s') :
    e.transferFails = false ∧ s'.vaultBal = 0 ∧ s'.bond.completed_at = e.now ∧
    ((s'.bond.status = .completed ∧
        3 ≤ total_votes s.bond.verification_votes ∧
        s'.agentBal = s.agentBal + s.vaultBal ∧
        s'.principalBal = s.principalBal) ∨
     (s'.bond.status = .slashed ∧
        s'.principalBal = s.principalBal + s.vaultBal ∧
        s'.agentBal = s.agentBal)) := by
  simp only [finalize_bond] at h
  split at h
  · exact Except.noConfusion h
  split at h
  · rename_i hcond
    rw [Bool.and_eq_true] at hcond
    have hq := (quorum_reached_iff _).1 hcond.1
    split at h
    · exact Except.noConfusion h
    · rename_i v a heq
      obtain ⟨hx, hle, hpair⟩ := transfer_ok_effects _ _ _ _ _ heq
      injection h with h
      subst h
      injection hpair with h1 h2
      subst h1; subst h2
      exact ⟨hx, by simp, by simp, Or.inl ⟨rfl, hq, by simp, by simp⟩⟩
  split at h
  · split at h
    · exact Except.noConfusion h
    · rename_i v p heq
      obtain ⟨hx, hle, hpair⟩ := transfer_ok_effects _ _ _ _ _ heq
      injection h with h
      subst h
      injection hpair with h1 h2
      subst h1; subst h2
      exact ⟨hx, by simp, by simp, Or.inr ⟨rfl, by simp, by simp⟩⟩
  split at h
  · split at h
    · exact Except.noConfusion h
    · rename_i v p heq
      obtain ⟨hx, hle, hpair⟩ := transfer_ok_effects _ _ _ _ _ heq
      injection h with h
      subst h
      injection hpair with h1 h2
      subst h1; subst h2
      exact ⟨hx, by simp, by simp, Or.inr ⟨rfl, by simp, by simp⟩⟩
  · exact Except.noConfusion h

theorem emergency_slash_ok_effects (s s' : State) (c : Nat) (e : Env)
    (h : emergency_slash s c e = .ok s') :
    e.transferFails = false ∧ s'.vaultBal = 0 ∧
    s'.bond.completed_at = e.now ∧ s'.bond.status = .slashed ∧
    s'.principalBal = s.principalBal + s.vaultBal ∧
    s'.agentBal = s.agentBal := by
  unfold emergency_slash at h
  split at h
  · exact Except.noConfusion h
  split at h
  · exact Except.noConfusion h
  split at h
  · exact Except.noConfusion h
  · rename_i v p heq
    obtain ⟨hx, hle, hpair⟩ := transfer_ok_effects _ _ _ _ _ heq
    injection h with h
    subst h
    injection hpair with h1 h2
    subst h1; subst h2
    exact ⟨hx, by simp, rfl, rfl, rfl, rfl⟩

theorem runInstr_of_no_ok (s : State) (r : Except AgberoError State)
    (h : ∀ s', r ≠ .ok s') : runInstr s r = s := by
  cases r with
  | ok s' => exact absurd rfl (h s')
  | error err => rfl

theorem state0_reachable : Reachable state0 :=
  Reachable.init 1 2 "b1" "t" 1000000 100 envA 5 6 bond0 rfl

/-! ### The claims -/

/-- Claim C1: for every bond eligible for finalization (PendingVerification,
or Active with the clock past the deadline), if at least 3 votes were cast
and approvals reach the 2/3 threshold, `finalize_bond` succeeds, sets
status Completed, stamps `completed_at` with the current time, and
transfers the whole current vault balance (not merely
`collateral_amount`) to the agent.  No bound on `e.now` is assumed beyond
eligibility, so this branch wins even past `deadline + 86400`; the witness
exercises exactly that, with a vault balance different from the
collateral. -/
theorem finalize_quorum_approve_completes (s : State) (e : Env)
    (helig : s.bond.status = .pendingVerification ∨
      (s.bond.status = .active ∧ e.now > s.bond.deadline))
    (hq : 3 ≤ total_votes s.bond.verification_votes)
    (hmaj : total_votes s.bond.verification_votes * 2 ≤
      approve_votes s.bond.verification_votes * 3)
    (hx : e.transferFails = false) :
    finalize_bond s e = .ok { s with
      bond := { s.bond with status := .completed, completed_at := e.now }
      vaultBal := 0
      agentBal := s.agentBal + s.vaultBal } := by
  have h1 : quorum_reached s.bond.verification_votes = true :=
    (quorum_reached_iff _).2 hq
  have h2 : majority_approve s.bond.verification_votes = true :=
    (majority_approve_iff _).2 hmaj
  simp only [finalize_bond]
  rw [if_neg (not_not_intro helig)]
  simp [h1, h2, transfer, hx]

theorem finalize_quorum_approve_completes_witness :
    finalize_bond stateA envG = .ok { stateA with
      bond := { stateA.bond with
        status := .completed
        completed_at := envG.now }
      vaultBal := 0
      agentBal := stateA.agentBal + stateA.vaultBal } :=
  finalize_quorum_approve_completes stateA envG (Or.inl rfl) (by decide)
    (by decide) rfl

/-- Claim C2: for every eligible bond on which neither 2/3 majority holds
with quorum, once the clock passes `deadline + 86400` the grace-period
branch of `finalize_bond` succeeds regardless of the votes cast: status
becomes Slashed, `completed_at` is stamped, and the whole current vault
balance goes to the principal. -/
theorem finalize_grace_period_slashes (s : State) (e : Env)
    (helig : s.bond.status = .pendingVerification ∨ s.bond.status = .active)
    (hnapp : ¬ (3 ≤ total_votes s.bond.verification_votes ∧
      total_votes s.bond.verification_votes * 2 ≤
        approve_votes s.bond.verification_votes * 3))
    (hnslash : ¬ (3 ≤ total_votes s.bond.verification_votes ∧
      total_votes s.bond.verification_votes * 2 ≤
        slash_votes s.bond.verification_votes * 3))
    (hgrace : e.now > s.bond.deadline + 86400)
    (hx : e.transferFails = false) :
    finalize_bond s e = .ok { s with
      bond := { s.bond with status := .slashed, completed_at := e.now }
      vaultBal := 0
      principalBal := s.principalBal + s.vaultBal } := by
  have helig2 : s.bond.status = .pendingVerification ∨
      (s.bond.status = .active ∧ e.now > s.bond.deadline) := by
    rcases helig with h | h
    · exact Or.inl h
    · exact Or.inr ⟨h, by omega⟩
  have h1 : (quorum_reached s.bond.verification_votes &&
      majority_approve s.bond.verification_votes) = false := by
    rw [Bool.eq_false_iff]
    intro hc
    rw [Bool.and_eq_true] at hc
    exact hnapp ⟨(quorum_reached_iff _).1 hc.1, (majority_approve_iff _).1 hc.2⟩
  have h2 : (quorum_reached s.bond.verification_votes &&
      majority_slash s.bond.verification_votes) = false := by
    rw [Bool.eq_false_iff]
    intro hc
    rw [Bool.and_eq_true] at hc
    exact hnslash ⟨(quorum_reached_iff _).1 hc.1, (majority_slash_iff _).1 hc.2⟩
  simp only [finalize_bond]
  rw [if_neg (not_not_intro helig2)]
  simp [h1, h2, hgrace, transfer, hx]

theorem finalize_grace_period_slashes_witness :
    finalize_bond stateC envG = .ok { stateC with
      bond := { stateC.bond with
        status := .slashed
        completed_at := envG.now }
      vaultBal := 0
      principalBal := stateC.principalBal + stateC.vaultBal } :=
  finalize_grace_period_slashes stateC envG (Or.inr rfl) (by decide)
    (by decide) (by decide) rfl

/-- Claim C3 (code bug): `verify_work` has no capacity check, so on a bond
already holding the 10 votes the record layout is sized for, an 11th vote
is appended successfully — the source contradicts its own layout comment
`verification_votes (max 10)` in `Bond::MAX_SIZE`. -/
theorem verify_work_overflows_capacity :
    stateTen.bond.verification_votes.length = 10 ∧
    ∃ s', verify_work stateTen 7 true envA = .ok s' ∧
      s'.bond.verification_votes.length = 11 := by
  exact ⟨by decide, ⟨_, rfl, by decide⟩⟩

/-- Claim C4: with quorum (3 or more votes) the two 2/3-majority
predicates of the tally, in exact integer arithmetic, are never both
true, while both can be false simultaneously (witnessed by a 2:2
split). -/
theorem majorities_mutually_exclusive :
    (∀ votes : List VerificationVote, 3 ≤ total_votes votes →
      ¬ (majority_approve votes = true ∧ majority_slash votes = true)) ∧
    (∃ votes : List VerificationVote, 3 ≤ total_votes votes ∧
      majority_approve votes = false ∧ majority_slash votes = false) := by
  constructor
  · intro votes h3 hboth
    have ha := (majority_approve_iff votes).1 hboth.1
    have hs := (majority_slash_iff votes).1 hboth.2
    have hle := approve_votes_le_total votes
    unfold slash_votes at hs
    omega
  · refine ⟨[⟨1, true, 0⟩, ⟨2, true, 0⟩, ⟨3, false, 0⟩, ⟨4, false, 0⟩],
      ?_, ?_, ?_⟩ <;> decide

theorem majorities_mutually_exclusive_witness :
    ¬ (majority_approve votes3 = true ∧ majority_slash votes3 = true) :=
  majorities_mutually_exclusive.1 votes3 (by decide)

/-- Claim C5: every transition invoked from a status that is not an
allowed predecessor for it fails with InvalidBondStatus, and under the
runtime's rollback rule (`runInstr`) leaves the record unchanged.  Since
Completed and Slashed are predecessors of no transition, terminal states
admit no further mutation. -/
theorem status_guard_totality (s : State) (e : Env) (caller : Nat)
    (approve : Bool) (uri : String) :
    (s.bond.status ≠ .pending →
      stake_collateral s caller e = .error .invalidBondStatus ∧
      runInstr s (stake_collateral s caller e) = s) ∧
    (s.bond.status ≠ .active →
      submit_proof s caller uri e = .error .invalidBondStatus ∧
      runInstr s (submit_proof s caller uri e) = s) ∧
    (s.bond.status ≠ .pendingVerification →
      verify_work s caller approve e = .error .invalidBondStatus ∧
      runInstr s (verify_work s caller approve e) = s) ∧
    (s.bond.status ≠ .pendingVerification ∧ s.bond.status ≠ .active →
      finalize_bond s e = .error .invalidBondStatus ∧
      runInstr s (finalize_bond s e) = s) ∧
    (s.bond.status ≠ .active ∧ s.bond.status ≠ .pendingVerification →
      emergency_slash s caller e = .error .invalidBondStatus ∧
      runInstr s (emergency_slash s caller e) = s) := by
  refine ⟨fun h => ?_, fun h => ?_, fun h => ?_, fun h => ?_, fun h => ?_⟩
  · simp [stake_collateral, h, runInstr]
  · simp [submit_proof, h, runInstr]
  · simp [verify_work, h, runInstr]
  · simp [finalize_bond, h.1, h.2, runInstr]
  · simp [emergency_slash, h.1, h.2, runInstr]

theorem status_guard_totality_witness :
    stake_collateral stateDone 2 envA = .error .invalidBondStatus ∧
    runInstr stateDone (stake_collateral stateDone 2 envA) = stateDone :=
  (status_guard_totality stateDone envA 2 true "u").1 (by decide)

/-- Claim C6: an eligible finalization on which no 2/3 majority holds
with quorum, attempted at or before `deadline + 86400`, fails with
QuorumNotReached; under the rollback rule the record (and hence every
field and balance) is unchanged. -/
theorem finalize_no_quorum_before_grace (s : State) (e : Env)
    (helig : s.bond.status = .pendingVerification ∨
      (s.bond.status = .active ∧ e.now > s.bond.deadline))
    (hnapp : ¬ (3 ≤ total_votes s.bond.verification_votes ∧
      total_votes s.bond.verification_votes * 2 ≤
        approve_votes s.bond.verification_votes * 3))
    (hnslash : ¬ (3 ≤ total_votes s.bond.verification_votes ∧
      total_votes s.bond.verification_votes * 2 ≤
        slash_votes s.bond.verification_votes * 3))
    (hg : e.now ≤ s.bond.deadline + 86400) :
    finalize_bond s e = .error .quorumNotReached ∧
    runInstr s (finalize_bond s e) = s := by
  have h1 : (quorum_reached s.bond.verification_votes &&
      majority_approve s.bond.verification_votes) = false := by
    rw [Bool.eq_false_iff]
    intro hc
    rw [Bool.and_eq_true] at hc
    exact hnapp ⟨(quorum_reached_iff _).1 hc.1, (majority_approve_iff _).1 hc.2⟩
  have h2 : (quorum_reached s.bond.verification_votes &&
      majority_slash s.bond.verification_votes) = false := by
    rw [Bool.eq_false_iff]
    intro hc
    rw [Bool.and_eq_true] at hc
    exact hnslash ⟨(quorum_reached_iff _).1 hc.1, (majority_slash_iff _).1 hc.2⟩
  have h3 : ¬ (e.now > s.bond.deadline + 86400) := by omega
  have hmain : finalize_bond s e = .error .quorumNotReached := by
    simp only [finalize_bond]
    rw [if_neg (not_not_intro helig)]
    simp [h1, h2, h3]
  exact ⟨hmain, by simp [hmain, runInstr]⟩

theorem finalize_no_quorum_before_grace_witness :
    finalize_bond stateB envA = .error .quorumNotReached ∧
    runInstr stateB (finalize_bond stateB envA) = stateB :=
  finalize_no_quorum_before_grace stateB envA (Or.inl rfl) (by decide)
    (by decide) (by decide)

/-- Claim C7: the terminal value transfers are all-or-nothing with
respect to the status transition.  Every successful `finalize_bond` both
sets a terminal status with `completed_at` stamped and drains the whole
vault to the matching party; when the ledger collaborator rejects the
transfer, the call cannot succeed — it returns the propagated transfer
error and the rollback rule leaves the record unchanged.  The same holds
for `emergency_slash`. -/
theorem terminal_transfer_all_or_nothing (s : State) (e : Env) (caller : Nat) :
    (∀ s', finalize_bond s e = .ok s' →
      s'.vaultBal = 0 ∧ s'.bond.completed_at = e.now ∧
      ((s'.bond.status = .completed ∧ s'.agentBal = s.agentBal + s.vaultBal ∧
          s'.principalBal = s.principalBal) ∨
       (s'.bond.status = .slashed ∧
          s'.principalBal = s.principalBal + s.vaultBal ∧
          s'.agentBal = s.agentBal))) ∧
    (e.transferFails = true → (∀ s', finalize_bond s e ≠ .ok s') ∧
      runInstr s (finalize_bond s e) = s) ∧
    (∀ s', emergency_slash s caller e = .ok s' →
      s'.vaultBal = 0 ∧ s'.bond.completed_at = e.now ∧
      s'.bond.status = .slashed ∧
      s'.principalBal = s.principalBal + s.vaultBal ∧
      s'.agentBal = s.agentBal) ∧
    (e.transferFails = true → (∀ s', emergency_slash s caller e ≠ .ok s') ∧
      runInstr s (emergency_slash s caller e) = s) := by
  have hfin : e.transferFails = true → ∀ s', finalize_bond s e ≠ .ok s' := by
    intro hx s' h
    obtain ⟨hx2, -⟩ := finalize_bond_ok_effects s s' e h
    simp [hx] at hx2
  have hem : e.transferFails = true →
      ∀ s', emergency_slash s caller e ≠ .ok s' := by
    intro hx s' h
    obtain ⟨hx2, -⟩ := emergency_slash_ok_effects s s' caller e h
    simp [hx] at hx2
  refine ⟨fun s' h => ?_, fun hx => ⟨hfin hx, ?_⟩, fun s' h => ?_,
    fun hx => ⟨hem hx, ?_⟩⟩
  · obtain ⟨hx, hv, hc, hcase⟩ := finalize_bond_ok_effects s s' e h
    exact ⟨hv, hc, by tauto⟩
  · exact runInstr_of_no_ok s _ (hfin hx)
  · obtain ⟨hx, hv, hc, hst, hp, ha⟩ := emergency_slash_ok_effects s s' caller e h
    exact ⟨hv, hc, hst, hp, ha⟩
  · exact runInstr_of_no_ok s _ (hem hx)

theorem terminal_transfer_all_or_nothing_witness :
    (stateDone.vaultBal = 0 ∧ stateDone.bond.completed_at = envA.now ∧
      ((stateDone.bond.status = .completed ∧
          stateDone.agentBal = stateA.agentBal + stateA.vaultBal ∧
          stateDone.principalBal = stateA.principalBal) ∨
       (stateDone.bond.status = .slashed ∧
          stateDone.principalBal = stateA.principalBal + stateA.vaultBal ∧
          stateDone.agentBal = stateA.agentBal))) ∧
    (∀ s', finalize_bond stateA envFail ≠ .ok s') ∧
    runInstr stateA (finalize_bond stateA envFail) = stateA ∧
    (∀ s', emergency_slash stateA 1 envFail ≠ .ok s') ∧
    runInstr stateA (emergency_slash stateA 1 envFail) = stateA :=
  ⟨(terminal_transfer_all_or_nothing stateA envA 1).1 stateDone (by decide),
   ((terminal_transfer_all_or_nothing stateA envFail 1).2.1 rfl).1,
   ((terminal_transfer_all_or_nothing stateA envFail 1).2.1 rfl).2,
   ((terminal_transfer_all_or_nothing stateA envFail 1).2.2.2 rfl).1,
   ((terminal_transfer_all_or_nothing stateA envFail 1).2.2.2 rfl).2⟩

set_option maxRecDepth 8000 in
/-- Claim C8 counterexample: the three creation checks are sequential,
not independent.  The concrete input below has collateral 0 (below the
1,000,000 minimum) yet `create_bond` does not fail with CollateralTooLow,
because its over-long description is checked first. -/
theorem create_bond_checks_are_sequential_cex :
    (0 : Nat) < 1000000 ∧
    create_bond 1 2 "b1" longDesc 0 100 { now := 0, transferFails := false } =
      .error .descriptionTooLong ∧
    create_bond 1 2 "b1" longDesc 0 100 { now := 0, transferFails := false } ≠
      .error .collateralTooLow := by
  refine ⟨by decide, by decide, by decide⟩

/-- Claim C8 (amended): `create_bond` validates in source order —
description length first, then collateral, then deadline; each error is
produced exactly when its own check fails and all earlier checks pass,
and when all three pass the bond is initialised with status Pending,
`completed_at` 0, empty vote lists and empty proof URI. -/
theorem create_bond_sequential_validation (principal agent : Nat)
    (bond_id task_description : String) (collateral_amount : Nat)
    (deadline : Int) (e : Env) :
    (task_description.length > 500 →
      create_bond principal agent bond_id task_description
        collateral_amount deadline e = .error .descriptionTooLong) ∧
    (task_description.length ≤ 500 → collateral_amount < 1000000 →
      create_bond principal agent bond_id task_description
        collateral_amount deadline e = .error .collateralTooLow) ∧
    (task_description.length ≤ 500 → 1000000 ≤ collateral_amount →
      deadline ≤ e.now →
      create_bond principal agent bond_id task_description
        collateral_amount deadline e = .error .invalidDeadline) ∧
    (task_description.length ≤ 500 → 1000000 ≤ collateral_amount →
      e.now < deadline →
      create_bond principal agent bond_id task_description
        collateral_amount deadline e = .ok {
          bond_id := bond_id
          principal := principal
          agent := agent
          task_description := task_description
          collateral_amount := collateral_amount
          deadline := deadline
          status := .pending
          created_at := e.now
          completed_at := 0
          verification_votes := []
          slash_votes := []
          proof_uri := "" }) := by
  refine ⟨fun h1 => ?_, fun h1 h2 => ?_, fun h1 h2 h3 => ?_,
    fun h1 h2 h3 => ?_⟩
  · simp [create_bond, h1]
  · simp [create_bond, Nat.not_lt.mpr h1, h2]
  · simp [create_bond, Nat.not_lt.mpr h1, Nat.not_lt.mpr h2, h3]
  · simp [create_bond, Nat.not_lt.mpr h1, Nat.not_lt.mpr h2, not_le.mpr h3]

theorem create_bond_sequential_validation_witness :
    create_bond 1 2 "b1" "t" 1000000 100 envA = .ok {
      bond_id := "b1"
      principal := 1
      agent := 2
      task_description := "t"
      collateral_amount := 1000000
      deadline := 100
      status := .pending
      created_at := envA.now
      completed_at := 0
      verification_votes := []
      slash_votes := []
      proof_uri := "" } :=
  (create_bond_sequential_validation 1 2 "b1" "t" 1000000 100 envA).2.2.2
    (by decide) (by decide) (by decide)

set_option maxRecDepth 2000 in
/-- Claim C9 (code bug): `create_bond` never checks the length of
`bond_id`, so an id of 51 bytes — one over the 50-byte budget of the
record layout (`bond_id // 4 + 50` in `Bond::MAX_SIZE`) — is accepted and
stored verbatim. -/
theorem create_bond_accepts_oversized_id :
    longId.length = 51 ∧
    ∃ b, create_bond 1 2 longId "t" 1000000 100 envA = .ok b ∧
      b.bond_id.length = 51 := by
  exact ⟨by decide, ⟨_, rfl, by decide⟩⟩

/-- Claim C10: in every reachable state, a bond whose status is Pending
or Active has an empty vote list (votes are only appended in
PendingVerification, which never returns to Active); consequently a
post-deadline finalize of an Active bond can never resolve by tally — if
it succeeds at all, it slashes via the grace-period branch. -/
theorem reachable_pending_active_votes_empty (s : State) (h : Reachable s) :
    ((s.bond.status = .pending ∨ s.bond.status = .active) →
      s.bond.verification_votes = []) ∧
    (s.bond.status = .active → ∀ (e : Env) (s' : State),
      finalize_bond s e = .ok s' → s'.bond.status = .slashed) := by
  have main : ∀ t, Reachable t →
      ((t.bond.status = .pending ∨ t.bond.status = .active) →
        t.bond.verification_votes = []) := by
    intro t ht
    induction ht with
    | init p a bid desc col dl e aB pB b hc =>
      intro hst
      exact (create_bond_ok_effects p a bid desc col dl e b hc).2.1
    | step s1 s2 h1 hstep ih =>
      cases hstep with
      | stake c e hok =>
        obtain ⟨hpend, hact, hvotes⟩ := stake_collateral_ok_effects s1 s2 c e hok
        intro hst
        rw [hvotes]
        exact ih (Or.inl hpend)
      | submit c uri e hok =>
        obtain ⟨-, hpv⟩ := submit_proof_ok_effects s1 s2 c uri e hok
        intro hcon
        rw [hpv] at hcon
        rcases hcon with hcon | hcon <;> exact absurd hcon (by decide)
      | verify v ap e hok =>
        obtain ⟨-, hpv, -⟩ := verify_work_ok_effects s1 s2 v ap e hok
        intro hcon
        rw [hpv] at hcon
        rcases hcon with hcon | hcon <;> exact absurd hcon (by decide)
      | finalize e hok =>
        obtain ⟨-, -, -, hcase⟩ := finalize_bond_ok_effects s1 s2 e hok
        intro hcon
        rcases hcase with ⟨hterm, -⟩ | ⟨hterm, -⟩ <;> rw [hterm] at hcon <;>
          rcases hcon with hcon | hcon <;> exact absurd hcon (by decide)
      | emergency c e hok =>
        obtain ⟨-, -, -, hterm, -⟩ := emergency_slash_ok_effects s1 s2 c e hok
        intro hcon
        rw [hterm] at hcon
        rcases hcon with hcon | hcon <;> exact absurd hcon (by decide)
  refine ⟨main s h, ?_⟩
  intro hact e s' hfin
  have hv := main s h (Or.inr hact)
  obtain ⟨-, -, -, hcase⟩ := finalize_bond_ok_effects s s' e hfin
  rcases hcase with ⟨-, hq, -⟩ | ⟨hst, -⟩
  · rw [hv] at hq
    simp [total_votes] at hq
  · exact hst

theorem reachable_pending_active_votes_empty_witness :
    state0.bond.verification_votes = [] :=
  (reachable_pending_active_votes_empty state0 state0_reachable).1
    (Or.inl rfl)

end Agbero
